import Mathlib

/-!
Shallow embedding of `pyramid_geoip` (module `pyramid_geoip/lookup.py`).

The program is Python 2.  Strings are modelled as lists of characters
(`PyStr`), byte strings as lists of `Fin 256`, Python exceptions as the
`Except PyError` monad, and the external collaborators that the utility
receives through keyword arguments (`exists`, `geoip_cls`,
`blob.update_from_url`, `blob.get_as_named_tempfile`) as an explicit
environment `Env`.  Observable side effects of provisioning (blob-store
queries and creations, network fetches, temporary-file creation and
deletion) are recorded in an `Effects` log so that frame conditions can be
stated.
-/

namespace PyramidGeoip

/-- Python 2 text strings, modelled as lists of characters. -/
abbrev PyStr := List Char

/-- Bytes of a Python 2 byte string (`str`). -/
abbrev Byte := Fin 256

/-- The exception classes the embedded code can raise or observe.
`configurationMisuse` is the `Exception('Must not call force_update after
setup_clients.')` raised by `force_update`; `decodeError` is a failure of
the `pygeoip.GeoIP` constructor; `keyError` is a Python `dict` miss;
`unicodeDecodeError` comes from `str.decode`; `valueError` stands for any
other exception a decoder's `record_by_addr` may raise. -/
inductive PyError
  | configurationMisuse
  | decodeError
  | keyError
  | unicodeDecodeError
  | valueError
deriving Repr, DecidableEq

/-- A Python value passed to `GeoIPLookupUtility.lookup`: a text string, or
a non-string value (`None` or an integer), which has no `split` attribute. -/
inductive Value
  | vstr (s : PyStr)
  | vnone
  | vint (n : Int)
deriving Repr, DecidableEq

/-- Python truthiness of a `Value`. -/
def Value.truthy : Value → Bool
  | .vstr s => !s.isEmpty
  | .vnone => false
  | .vint n => n != 0

/-- `hasattr(v, 'split')`: true exactly for text strings in our value
universe. -/
def Value.hasSplit : Value → Bool
  | .vstr _ => true
  | _ => false

/-- A value stored in a field of a geo record: a Python 2 byte string
(`str`), a unicode string, an integer, or `None`. -/
inductive FieldValue
  | fbytes (bs : List Byte)
  | funicode (s : PyStr)
  | fint (n : Int)
  | fnone
deriving Repr, DecidableEq

/-- Python truthiness of a field value. -/
def FieldValue.truthy : FieldValue → Bool
  | .fbytes bs => !bs.isEmpty
  | .funicode s => !s.isEmpty
  | .fint n => n != 0
  | .fnone => false

/-- A geo record as returned by `record_by_addr`: a dictionary from field
names to field values.  `[]` is the empty record. -/
abbrev GeoRecord := List (PyStr × FieldValue)

/-- The empty record `{}` returned when every decoder fails. -/
def emptyRecord : GeoRecord := []

/-- `s.strip()`: drop leading and trailing whitespace. -/
def pyStrip (s : PyStr) : PyStr :=
  ((s.dropWhile Char.isWhitespace).reverse.dropWhile Char.isWhitespace).reverse

/-- `s.split(',')[0]`: the prefix of `s` up to (not including) the first
comma; the whole of `s` when it has no comma. -/
def pySplitHead (s : PyStr) : PyStr :=
  s.takeWhile (fun c => c != ',')

/-- `s.endswith(suffix)`. -/
def pyEndsWith (s suffix : PyStr) : Bool :=
  suffix.isSuffixOf s

/-- The `'.gz'` suffix tested by `get_blob` to decide decompression. -/
def gzSuffix : PyStr := ['.', 'g', 'z']

/-- The address normalisation at the top of `lookup`:
`if ip_address and hasattr(ip_address, 'split'):
   ip_address = ip_address.split(',')[0].strip()`. -/
def normalizeAddress (v : Value) : Value :=
  if v.truthy && v.hasSplit then
    match v with
    | .vstr s => .vstr (pyStrip (pySplitHead s))
    | w => w
  else v

/-- A decoder client as seen by `lookup`: its `record_by_addr` method,
which either returns a record or raises. -/
abbrev Client := Value → Except PyError GeoRecord

/-- The decoder-trial loop of `lookup`: `for client in self.clients:
try: return client.record_by_addr(ip_address) except Exception: continue`,
falling through to `return {}`. -/
def tryClients (ip : Value) : List Client → GeoRecord
  | [] => emptyRecord
  | c :: rest =>
      match c ip with
      | .ok r => r
      | .error _ => tryClients ip rest

/-- `GeoIPLookupUtility.lookup`: normalise the address, then try each
client in order, swallowing individual failures. -/
def lookup (clients : List Client) (ip_address : Value) : GeoRecord :=
  tryClients (normalizeAddress ip_address) clients

/-- A `pyramid_basemodel.blob.Blob` row: a named binary blob.  Its content
is opaque; we track it as an optional token (`none` for a freshly created,
never-populated blob).  `update_from_url` replaces the token with whatever
the environment's fetch function yields for the URL. -/
structure Blob where
  name : PyStr
  content : Option Nat
deriving Repr, DecidableEq

/-- `Blob.factory(name)`: a new empty blob with the given name. -/
def Blob.factory (name : PyStr) : Blob :=
  { name := name, content := none }

/-- A `pygeoip.GeoIP` instance, identified by the file it was opened on and
the access flag it was given. -/
structure Decoder where
  filename : PyStr
  accessFlag : Nat
deriving Repr, DecidableEq

/-- Observable side effects of one provisioning call: how many blob-store
queries and blob creations happened, the network fetches performed
(`update_from_url` calls, each recorded with its URL and `should_unzip`
argument), how many times `save` ran, and whether a temporary file was
created and whether it was deleted. -/
structure Effects where
  blobQueries : Nat
  blobCreates : Nat
  fetchLog : List (PyStr × Bool)
  saves : Nat
  tempCreated : Bool
  tempDeleted : Bool
deriving Repr, DecidableEq

/-- No side effects. -/
def zeroEffects : Effects :=
  { blobQueries := 0, blobCreates := 0, fetchLog := [], saves := 0,
    tempCreated := false, tempDeleted := false }

/-- The injected collaborators of `GeoIPLookupUtility`: `exists`
(`os.path.exists` by default), the behaviour of the `pygeoip.GeoIP`
constructor (whether it succeeds on a given filename and access flag), the
content the network yields for a URL (with the `should_unzip` flag), and
the name `get_as_named_tempfile` gives the temporary file holding a blob's
content. -/
structure Env where
  pathExists : PyStr → Bool
  geoipOk : PyStr → Nat → Bool
  fetchContent : PyStr → Bool → Nat
  tempName : Nat → PyStr

/-- The mutable state of a `GeoIPLookupUtility` instance, together with the
blob store it talks to. -/
structure UtilState where
  clients : List Decoder
  databases : List (PyStr × PyStr × PyStr)
  settings : List (PyStr × PyStr)
  shouldSave : Bool
  shouldForceUpdate : Bool
  accessFlag : Nat
  blobStore : List Blob
deriving Repr, DecidableEq

/-- `self.geoip_cls(filename, self.access_flag)`: construct a decoder,
raising (a `DecodeError`) when the environment says the file is not a valid
database. -/
def geoip_cls (env : Env) (filename : PyStr) (flag : Nat) :
    Except PyError Decoder :=
  if env.geoipOk filename flag then .ok ⟨filename, flag⟩
  else .error .decodeError

/-- `blob.update_from_url(url, should_unzip=url.endswith('.gz'))`. -/
def updateFromUrl (env : Env) (blob : Blob) (url : PyStr) (unzip : Bool) :
    Blob :=
  { blob with content := some (env.fetchContent url unzip) }

/-- `save(blob)`: persist the blob in the store, replacing any blob of the
same name, else appending. -/
def saveBlob (store : List Blob) (b : Blob) : List Blob :=
  if store.any (fun x => x.name == b.name) then
    store.map (fun x => if x.name == b.name then b else x)
  else store ++ [b]

/-- `GeoIPLookupUtility.get_blob(name, url)`: query the store for a blob of
that name, create one if absent, and populate it from the URL when it is
new or a force update is in effect, decompressing when the URL ends in
`'.gz'`; persist it only when `should_save` is set.  Returns the blob, the
updated state and the effect log. -/
def get_blob (env : Env) (st : UtilState) (name url : PyStr) :
    Blob × UtilState × Effects :=
  let found := st.blobStore.find? (fun b => b.name == name)
  let isNew := found.isNone
  let blob := match found with
    | some b => b
    | none => Blob.factory name
  let eff0 : Effects :=
    { zeroEffects with blobQueries := 1,
                       blobCreates := if isNew then 1 else 0 }
  if isNew || st.shouldForceUpdate then
    let unzip := pyEndsWith url gzSuffix
    let blob1 := updateFromUrl env blob url unzip
    let eff1 := { eff0 with fetchLog := [(url, unzip)] }
    if st.shouldSave then
      (blob1, { st with blobStore := saveBlob st.blobStore blob1 },
       { eff1 with saves := 1 })
    else (blob1, st, eff1)
  else (blob, st, eff0)

/-- `GeoIPLookupUtility.make_geoip(name, path, url)`: prefer the local
filesystem; otherwise materialise the blob as a named temporary file and
open the decoder on it.  The source deletes the temporary file in
straight-line code after the `geoip_cls` call (no `try/finally`), so when
the constructor raises, the exception propagates with the deletion never
performed — the `Effects` log records exactly that. -/
def make_geoip (env : Env) (st : UtilState) (name path url : PyStr) :
    Except PyError Decoder × UtilState × Effects :=
  if env.pathExists path then
    (geoip_cls env path st.accessFlag, st, zeroEffects)
  else
    let r := get_blob env st name url
    let blob := r.1
    let st1 := r.2.1
    let filename := env.tempName (blob.content.getD 0)
    let eff2 := { r.2.2 with tempCreated := true }
    match geoip_cls env filename st1.accessFlag with
    | .ok g => (.ok g, st1, { eff2 with tempDeleted := true })
    | .error e => (.error e, st1, eff2)

/-- `settings.get(key, default)`. -/
def settingsGet (settings : List (PyStr × PyStr)) (key dflt : PyStr) :
    PyStr :=
  match settings.find? (fun kv => kv.1 == key) with
  | some kv => kv.2
  | none => dflt

/-- `defaults[key]`: a Python dict subscript, raising `KeyError` on a
miss. -/
def dictGet (d : List (PyStr × PyStr)) (key : PyStr) :
    Except PyError PyStr :=
  match d.find? (fun kv => kv.1 == key) with
  | some kv => .ok kv.2
  | none => .error .keyError

/-- `'geoip.cities_{0}_name'.format(item)` and friends. -/
def keyFor (item suffix : PyStr) : PyStr :=
  "geoip.cities_".toList ++ item ++ suffix

/-- The module constant `IP_TYPES = ['ip4', 'ip6']`. -/
def IP_TYPES : List PyStr := ["ip4".toList, "ip6".toList]

/-- The module constant `DEFAULTS`. -/
def DEFAULTS : List (PyStr × PyStr) :=
  [("geoip.cities_ip4_name".toList, "GeoLiteCity".toList),
   ("geoip.cities_ip4_path".toList, "vendor/GeoLiteCity.dat".toList),
   ("geoip.cities_ip4_url".toList,
    "https://geolite.maxmind.com/download/geoip/database/GeoLiteCity.dat.gz".toList),
   ("geoip.cities_ip6_name".toList, "GeoLiteCityv6".toList),
   ("geoip.cities_ip6_path".toList, "vendor/GeoLiteCityv6.dat".toList),
   ("geoip.cities_ip6_url".toList,
    "https://geolite.maxmind.com/download/geoip/database/GeoLiteCityv6-beta/GeoLiteCityv6.dat.gz".toList)]

/-- The body of the `for item in ip_types` loop of `setup_clients`: resolve
the name/path/url config for each address family (settings first, then the
`defaults` dict, whose subscript can raise `KeyError`), append the config
to `databases`, instantiate the client and append it to `clients`.  An
exception from `make_geoip` propagates and aborts the loop. -/
def setupLoop (env : Env) (defaults : List (PyStr × PyStr)) :
    UtilState → List PyStr → Except PyError UtilState
  | st, [] => .ok st
  | st, item :: rest => do
      let dfltName ← dictGet defaults (keyFor item "_name".toList)
      let name := settingsGet st.settings (keyFor item "_name".toList) dfltName
      let dfltPath ← dictGet defaults (keyFor item "_path".toList)
      let path := settingsGet st.settings (keyFor item "_path".toList) dfltPath
      let dfltUrl ← dictGet defaults (keyFor item "_url".toList)
      let url := settingsGet st.settings (keyFor item "_url".toList) dfltUrl
      let st1 := { st with databases := st.databases ++ [(name, path, url)] }
      match make_geoip env st1 name path url with
      | (.ok client, st2, _eff) =>
          setupLoop env defaults
            { st2 with clients := st2.clients ++ [client] } rest
      | (.error e, _, _) => .error e

/-- `GeoIPLookupUtility.setup_clients(ip_types, defaults)`: reset `clients`
and `databases` to empty lists, then provision one client per address
family.  There is no guard against the engine being already populated. -/
def setup_clients (env : Env) (st : UtilState) (ip_types : List PyStr)
    (defaults : List (PyStr × PyStr)) : Except PyError UtilState :=
  setupLoop env defaults { st with clients := [], databases := [] } ip_types

/-- `GeoIPLookupUtility.force_update()`: raise when `self.clients` is
truthy (non-empty), else set the force flag and run `setup_clients` with
its default arguments. -/
def force_update (env : Env) (st : UtilState) : Except PyError UtilState :=
  if !st.clients.isEmpty then .error .configurationMisuse
  else setup_clients env { st with shouldForceUpdate := true }
         IP_TYPES DEFAULTS

/-- The latin-1 (ISO-8859-1) codec table: every code unit below 256 maps to
the character with the same code point; anything else is undecodable. -/
def latin1Table (n : Nat) : Option Char :=
  if n < 256 then some (Char.ofNat n) else none

/-- Decode a byte string with a single-byte codec table, raising
`UnicodeDecodeError` on the first byte the table rejects.  This models
`value.decode('latin-1')` when applied with `latin1Table`. -/
def decodeSingleByteCodec (table : Nat → Option Char) :
    List Byte → Except PyError PyStr
  | [] => .ok []
  | b :: rest =>
      match table b.val with
      | none => .error .unicodeDecodeError
      | some c =>
          match decodeSingleByteCodec table rest with
          | .ok s => .ok (c :: s)
          | .error e => .error e

/-- Is `b` a UTF-8 continuation byte (`10xxxxxx`)? -/
def isCont (b : Byte) : Bool :=
  128 ≤ b.val && b.val < 192

/-- The six payload bits of a UTF-8 continuation byte. -/
def contVal (b : Byte) : Nat := b.val % 64

/-- `value.decode('utf-8')`: standard UTF-8 decoding, raising
`UnicodeDecodeError` on stray continuation bytes, truncated or malformed
sequences, overlong two-byte forms, surrogates, and code points beyond
U+10FFFF. -/
def decodeUtf8 : List Byte → Except PyError PyStr
  | [] => .ok []
  | b :: rest =>
      if b.val < 128 then
        match decodeUtf8 rest with
        | .ok s => .ok (Char.ofNat b.val :: s)
        | .error e => .error e
      else if b.val < 194 then .error .unicodeDecodeError
      else if b.val < 224 then
        match rest with
        | b2 :: rest2 =>
            if isCont b2 then
              match decodeUtf8 rest2 with
              | .ok s => .ok (Char.ofNat ((b.val % 32) * 64 + contVal b2) :: s)
              | .error e => .error e
            else .error .unicodeDecodeError
        | [] => .error .unicodeDecodeError
      else if b.val < 240 then
        match rest with
        | b2 :: b3 :: rest3 =>
            if isCont b2 && isCont b3 then
              let cp := (b.val % 16) * 4096 + contVal b2 * 64 + contVal b3
              if 55296 ≤ cp && cp < 57344 then .error .unicodeDecodeError
              else
                match decodeUtf8 rest3 with
                | .ok s => .ok (Char.ofNat cp :: s)
                | .error e => .error e
            else .error .unicodeDecodeError
        | _ => .error .unicodeDecodeError
      else if b.val < 245 then
        match rest with
        | b2 :: b3 :: b4 :: rest4 =>
            if isCont b2 && isCont b3 && isCont b4 then
              let cp := (b.val % 8) * 262144 + contVal b2 * 4096 +
                contVal b3 * 64 + contVal b4
              if 1114112 ≤ cp then .error .unicodeDecodeError
              else
                match decodeUtf8 rest4 with
                | .ok s => .ok (Char.ofNat cp :: s)
                | .error e => .error e
            else .error .unicodeDecodeError
        | _ => .error .unicodeDecodeError
      else .error .unicodeDecodeError

/-- The per-field body of the decoding loop in `get_geoip_lookup`:
`if value and isinstance(value, str): try: value = value.decode('latin-1')
except UnicodeDecodeError: value = value.decode('utf-8')`.  Returns the
resulting value together with a flag recording whether the
`UnicodeDecodeError` fallback branch ran. -/
def decodeFieldValue (v : FieldValue) : Except PyError (FieldValue × Bool) :=
  if v.truthy then
    match v with
    | .fbytes bs =>
        match decodeSingleByteCodec latin1Table bs with
        | .ok s => .ok (.funicode s, false)
        | .error _ =>
            match decodeUtf8 bs with
            | .ok s => .ok (.funicode s, true)
            | .error e => .error e
    | w => .ok (w, false)
  else .ok (v, false)

/-- The `for key in data` text-decoding pass of `get_geoip_lookup`, applied
to every field of the record.  Returns the rewritten record and whether any
field took the utf-8 fallback branch; an uncaught exception propagates. -/
def processRecord : GeoRecord → Except PyError (GeoRecord × Bool)
  | [] => .ok ([], false)
  | (k, v) :: rest => do
      let rv ← decodeFieldValue v
      let rr ← processRecord rest
      .ok ((k, rv.1) :: rr.1, rv.2 || rr.2)

/-- Fixture: an environment in which every local database file exists and
every decoder construction succeeds. -/
def envAllOk : Env :=
  { pathExists := fun _ => true, geoipOk := fun _ _ => true,
    fetchContent := fun _ _ => 0, tempName := fun _ => "tmp".toList }

/-- Fixture: an environment with no local files and a `pygeoip.GeoIP`
constructor that always raises (e.g. the downloaded data is corrupt). -/
def envBadData : Env :=
  { pathExists := fun _ => false, geoipOk := fun _ _ => false,
    fetchContent := fun _ _ => 0, tempName := fun _ => "tmp".toList }

/-- Fixture: the state of a freshly constructed utility (`__init__` with
empty settings and an empty blob store). -/
def stInitial : UtilState :=
  { clients := [], databases := [], settings := [], shouldSave := true,
    shouldForceUpdate := false, accessFlag := 0, blobStore := [] }

/-- Fixture: a utility whose decoders are already populated by a prior
setup. -/
def stPopulated : UtilState :=
  { stInitial with clients := [⟨"vendor/GeoLiteCity.dat".toList, 0⟩] }

/-- Fixture: a client whose `record_by_addr` always raises. -/
def clientFail : Client := fun _ => .error .valueError

/-- Fixture: a client whose `record_by_addr` returns `{'city': u'X'}` for
every address. -/
def clientCityX : Client :=
  fun _ => .ok [("city".toList, .funicode "X".toList)]

/-- Fixture: a blob already cached in the store under the default ip4
name. -/
def blobCached : Blob :=
  { name := "GeoLiteCity".toList, content := some 7 }

/-- Fixture: a freshly constructed utility over a store already holding
`blobCached`. -/
def stWithBlob : UtilState :=
  { stInitial with blobStore := [blobCached] }

/-- Fixture: one provisioning call in which the local file is absent and
the decoder constructor raises on the materialised temporary file. -/
def leakRun : Except PyError Decoder × UtilState × Effects :=
  make_geoip envBadData stInitial "GeoLiteCity".toList
    "vendor/GeoLiteCity.dat".toList
    "https://geolite.maxmind.com/download/geoip/database/GeoLiteCity.dat.gz".toList

/-! ### Helper lemmas -/

/-- `takeWhile` consumes exactly a prefix whose elements all satisfy `p`
when the next element fails `p`. -/
theorem takeWhile_append_head (p : Char → Bool) (s t : List Char) (c : Char)
    (hs : ∀ x ∈ s, p x = true) (hc : p c = false) :
    (s ++ c :: t).takeWhile p = s := by
  induction s with
  | nil => simp [List.takeWhile_cons, hc]
  | cons a as ih =>
      have ha := hs a (List.mem_cons_self a as)
      simp only [List.cons_append, List.takeWhile_cons, ha, if_true]
      exact congrArg (a :: ·) (ih fun x hx => hs x (List.mem_cons_of_mem a hx))

/-- `takeWhile` is the identity on a list all of whose elements satisfy
`p`. -/
theorem takeWhile_of_all (p : Char → Bool) (s : List Char)
    (hs : ∀ x ∈ s, p x = true) :
    s.takeWhile p = s := by
  induction s with
  | nil => rfl
  | cons a as ih =>
      have ha := hs a (List.mem_cons_self a as)
      simp only [List.takeWhile_cons, ha, if_true]
      exact congrArg (a :: ·) (ih fun x hx => hs x (List.mem_cons_of_mem a hx))

/-- Computation rule for `normalizeAddress` on a string value. -/
theorem normalizeAddress_vstr (s : PyStr) :
    normalizeAddress (.vstr s) =
      if s.isEmpty then .vstr s else .vstr (pyStrip (pySplitHead s)) := by
  cases s with
  | nil => rfl
  | cons a as => rfl

/-- Normalisation sends `s ++ "," ++ t` and `s` to the same address when
`s` has no comma: both become `s` stripped of surrounding whitespace. -/
theorem normalizeAddress_comma (s t : PyStr) (h : ',' ∉ s) :
    normalizeAddress (.vstr (s ++ ',' :: t)) = normalizeAddress (.vstr s) := by
  have hall : ∀ x ∈ s, (x != ',') = true := by
    intro x hx
    simp only [bne_iff_ne, ne_eq]
    exact fun hxc => h (hxc ▸ hx)
  have hsplit : pySplitHead (s ++ ',' :: t) = s :=
    takeWhile_append_head _ s t ',' hall (by simp)
  rw [normalizeAddress_vstr, normalizeAddress_vstr]
  cases s with
  | nil =>
      rw [hsplit]
      rfl
  | cons a as =>
      have hself : pySplitHead (a :: as) = a :: as :=
        takeWhile_of_all _ _ hall
      rw [hsplit, hself]
      rfl

/-- The only exception `geoip_cls` can raise is a decode failure. -/
theorem geoip_cls_error (env : Env) (f : PyStr) (flag : Nat) (e : PyError)
    (h : geoip_cls env f flag = .error e) : e = .decodeError := by
  unfold geoip_cls at h
  split at h <;> simp_all

/-- The only exception `dictGet` can raise is a `KeyError`. -/
theorem dictGet_error (d : List (PyStr × PyStr)) (k : PyStr) (e : PyError)
    (h : dictGet d k = .error e) : e = .keyError := by
  unfold dictGet at h
  split at h <;> simp_all

/-- The only exception `make_geoip` can raise is a decoder construction
failure. -/
theorem make_geoip_error_decode (env : Env) (st : UtilState)
    (name path url : PyStr) (e : PyError)
    (h : (make_geoip env st name path url).1 = .error e) :
    e = .decodeError := by
  unfold make_geoip at h
  by_cases hp : env.pathExists path <;> simp only [hp, if_true, if_false] at h
  · exact geoip_cls_error env path st.accessFlag e h
  · rcases hg : geoip_cls env
        (env.tempName ((get_blob env st name url).1.content.getD 0))
        ((get_blob env st name url).2.1.accessFlag) with e' | g <;>
      rw [hg] at h <;> simp at h
    exact h ▸ geoip_cls_error _ _ _ _ hg

/-- `setupLoop` never raises the configuration-misuse exception: its only
failure modes are a `KeyError` from the defaults dict and a decode failure
from `make_geoip`. -/
theorem setupLoop_ne_misuse (env : Env) (defaults : List (PyStr × PyStr))
    (items : List PyStr) (st : UtilState) :
    setupLoop env defaults st items ≠ .error .configurationMisuse := by
  induction items generalizing st with
  | nil => simp [setupLoop]
  | cons item rest ih =>
      unfold setupLoop
      cases hn : dictGet defaults (keyFor item "_name".toList) with
      | error e =>
          intro hc
          simp only [bind, Except.bind] at hc
          rw [Except.error.injEq] at hc
          have he := dictGet_error _ _ _ hn
          rw [hc] at he
          cases he
      | ok dn =>
        cases hpth : dictGet defaults (keyFor item "_path".toList) with
        | error e =>
            intro hc
            simp only [bind, Except.bind] at hc
            rw [Except.error.injEq] at hc
            have he := dictGet_error _ _ _ hpth
            rw [hc] at he
            cases he
        | ok dp =>
          cases hu : dictGet defaults (keyFor item "_url".toList) with
          | error e =>
              intro hc
              simp only [bind, Except.bind] at hc
              rw [Except.error.injEq] at hc
              have he := dictGet_error _ _ _ hu
              rw [hc] at he
              cases he
          | ok du =>
              intro hc
              simp only [bind, Except.bind] at hc
              split at hc
              · next g st2 eff heq => exact ih _ hc
              · next e st2 eff heq =>
                  rw [Except.error.injEq] at hc
                  have he : e = PyError.decodeError :=
                    make_geoip_error_decode env _ _ _ _ e (by rw [heq])
                  rw [hc] at he
                  cases he

/-- `setup_clients` never raises the configuration-misuse exception. -/
theorem setup_clients_ne_misuse (env : Env) (st : UtilState)
    (ip_types : List PyStr) (defaults : List (PyStr × PyStr)) :
    setup_clients env st ip_types defaults ≠ .error .configurationMisuse :=
  setupLoop_ne_misuse env defaults ip_types _

/-- When every client raises on every address, the decoder-trial loop falls
through to the empty record. -/
theorem tryClients_all_fail (ip : Value) (clients : List Client)
    (h : ∀ c ∈ clients, ∀ v, (c v).isOk = false) :
    tryClients ip clients = emptyRecord := by
  induction clients with
  | nil => rfl
  | cons c rest ih =>
      have hc := h c (List.mem_cons_self c rest) ip
      unfold tryClients
      cases hcv : c ip with
      | ok r =>
          rw [hcv] at hc
          cases hc
      | error e =>
          exact ih fun a ha v => h a (List.mem_cons_of_mem c ha) v

/-- The decoder-trial loop returns the first client that does not raise,
skipping every raising client before it. -/
theorem tryClients_first_success (ip : Value) (pre rest : List Client)
    (c : Client) (r : GeoRecord)
    (hpre : ∀ a ∈ pre, ∃ e, a ip = .error e)
    (hc : c ip = .ok r) :
    tryClients ip (pre ++ c :: rest) = r := by
  induction pre with
  | nil =>
      show tryClients ip (c :: rest) = r
      unfold tryClients
      rw [hc]
  | cons a as ih =>
      obtain ⟨e, he⟩ := hpre a (List.mem_cons_self a as)
      show tryClients ip (a :: (as ++ c :: rest)) = r
      unfold tryClients
      rw [he]
      exact ih fun x hx => hpre x (List.mem_cons_of_mem a hx)

/-- Latin-1 decoding succeeds on every byte string: each byte is below 256
and hence in the codec table. -/
theorem decodeSingleByteCodec_latin1_ok (bs : List Byte) :
    ∃ s, decodeSingleByteCodec latin1Table bs = .ok s := by
  induction bs with
  | nil => exact ⟨[], rfl⟩
  | cons b rest ih =>
      obtain ⟨s, hs⟩ := ih
      refine ⟨Char.ofNat b.val :: s, ?_⟩
      have hb : latin1Table b.val = some (Char.ofNat b.val) := by
        unfold latin1Table
        rw [if_pos b.isLt]
      unfold decodeSingleByteCodec
      rw [hb, hs]

/-- Decoding one field never raises and never takes the utf-8 fallback
branch. -/
theorem decodeFieldValue_no_fallback (v : FieldValue) :
    ∃ w, decodeFieldValue v = .ok (w, false) := by
  unfold decodeFieldValue
  cases ht : v.truthy with
  | false =>
      exact ⟨v, by rw [if_neg (by simp)]⟩
  | true =>
      rw [if_pos rfl]
      cases v with
      | fbytes bs =>
          obtain ⟨s, hs⟩ := decodeSingleByteCodec_latin1_ok bs
          exact ⟨.funicode s, by simp [hs]⟩
      | funicode s => exact ⟨.funicode s, rfl⟩
      | fint n => exact ⟨.fint n, rfl⟩
      | fnone => exact ⟨.fnone, rfl⟩

/-! ### Claim theorems -/

/-- C1, counterexample: the claim says `setup_clients` on an engine whose
decoders are already populated always fails with the configuration-misuse
error; in fact `setup_clients` has no such guard, and on a populated engine
(with every database present locally) it succeeds, silently
re-provisioning. -/
theorem setup_clients_on_populated_engine_succeeds :
    (setup_clients envAllOk stPopulated IP_TYPES DEFAULTS).isOk = true := by
  rfl

/-- C1, amended: `force_update` on an engine whose decoders are already
populated always fails with the configuration-misuse error, regardless of
the environment; `setup_clients` performs no such check and can never raise
that error — it silently re-provisions instead. -/
theorem force_update_populated_fails_misuse (env : Env) (st : UtilState)
    (ip_types : List PyStr) (defaults : List (PyStr × PyStr))
    (h : st.clients ≠ []) :
    force_update env st = .error .configurationMisuse ∧
    setup_clients env st ip_types defaults ≠ .error .configurationMisuse := by
  rcases hcl : st.clients with _ | ⟨c, cs⟩
  · exact absurd hcl h
  · constructor
    · unfold force_update
      rw [hcl]
      rfl
    · exact setup_clients_ne_misuse env st ip_types defaults

/-- C1, witness for the amended theorem at a concretely populated
engine. -/
theorem force_update_populated_fails_misuse_witness :
    stPopulated.clients ≠ [] ∧
    (force_update envAllOk stPopulated = .error .configurationMisuse ∧
     setup_clients envAllOk stPopulated IP_TYPES DEFAULTS ≠
       .error .configurationMisuse) :=
  ⟨by decide,
   force_update_populated_fails_misuse envAllOk stPopulated IP_TYPES DEFAULTS
     (by decide)⟩

/-- C2, code bug: on the failing input where the local file is absent (the
blob is materialised as a temporary file) and the decoder constructor
raises, the temporary file is created but never deleted — the `unlink` is
straight-line code after the constructor call with no `try/finally`, so the
exception skips it.  The claim (and the spec's resource model) requires
deletion regardless of constructor failure. -/
theorem make_geoip_temp_leak_on_decode_failure :
    leakRun.2.2.tempCreated = true ∧
    leakRun.2.2.tempDeleted = false ∧
    leakRun.1 = .error .decodeError :=
  ⟨rfl, rfl, rfl⟩

/-- C3: `lookup` is a total function of the engine state and the input
value — every client call sits inside the `try/except Exception` so no
client failure escapes — and in the worst case, when every configured
decoder raises on every address (vacuously, when no decoders are
configured), it returns the empty record, for every input value including
the empty string, malformed strings and non-string values. -/
theorem lookup_never_raises_worst_case_empty (clients : List Client)
    (ip : Value) (h : ∀ c ∈ clients, ∀ v, (c v).isOk = false) :
    lookup clients ip = emptyRecord :=
  tryClients_all_fail (normalizeAddress ip) clients h

/-- C3, witness: one always-raising decoder and the empty string. -/
theorem lookup_never_raises_worst_case_empty_witness :
    (∀ c ∈ [clientFail], ∀ v, (c v).isOk = false) ∧
    lookup [clientFail] (.vstr []) = emptyRecord :=
  ⟨fun c hc v => by rw [List.mem_singleton.mp hc]; rfl,
   lookup_never_raises_worst_case_empty [clientFail] (.vstr [])
     (fun c hc v => by rw [List.mem_singleton.mp hc]; rfl)⟩

/-- C4: `lookup` tries the decoders in the order they were appended and
returns the result of the first whose `record_by_addr` does not raise;
raising decoders before it are skipped without affecting the result. -/
theorem lookup_first_success (pre rest : List Client) (c : Client)
    (ip : Value) (r : GeoRecord)
    (hpre : ∀ a ∈ pre, ∃ e, a (normalizeAddress ip) = .error e)
    (hc : c (normalizeAddress ip) = .ok r) :
    lookup (pre ++ c :: rest) ip = r :=
  tryClients_first_success (normalizeAddress ip) pre rest c r hpre hc

/-- C4, witness: decoders `[A, B]` where A raises and B returns
`{city: "X"}`; `lookup` returns `{city: "X"}`. -/
theorem lookup_first_success_witness :
    clientCityX (normalizeAddress (.vstr "1.2.3.4".toList)) =
      .ok [("city".toList, .funicode "X".toList)] ∧
    lookup [clientFail, clientCityX] (.vstr "1.2.3.4".toList) =
      [("city".toList, .funicode "X".toList)] :=
  ⟨rfl,
   lookup_first_success [clientFail] [] clientCityX
     (.vstr "1.2.3.4".toList) [("city".toList, .funicode "X".toList)]
     (fun a ha => ⟨.valueError, by rw [List.mem_singleton.mp ha]; rfl⟩) rfl⟩

/-- C5: when the file at `path` exists locally, `make_geoip` opens the
decoder directly on that path and performs no blob-store query, no blob
creation, no network fetch, and no temp-file handling, leaving the state
untouched. -/
theorem make_geoip_local_fast_path (env : Env) (st : UtilState)
    (name path url : PyStr) (h : env.pathExists path = true) :
    make_geoip env st name path url =
      (geoip_cls env path st.accessFlag, st, zeroEffects) ∧
    (env.geoipOk path st.accessFlag = true →
      (make_geoip env st name path url).1 = .ok ⟨path, st.accessFlag⟩) := by
  constructor
  · unfold make_geoip
    rw [if_pos h]
  · intro hg
    simp [make_geoip, geoip_cls, h, hg]

/-- C5, witness: a concrete environment where the local file exists. -/
theorem make_geoip_local_fast_path_witness :
    envAllOk.pathExists "vendor/GeoLiteCity.dat".toList = true ∧
    (make_geoip envAllOk stInitial "GeoLiteCity".toList
        "vendor/GeoLiteCity.dat".toList "u".toList =
      (geoip_cls envAllOk "vendor/GeoLiteCity.dat".toList
         stInitial.accessFlag, stInitial, zeroEffects) ∧
     (envAllOk.geoipOk "vendor/GeoLiteCity.dat".toList
          stInitial.accessFlag = true →
       (make_geoip envAllOk stInitial "GeoLiteCity".toList
           "vendor/GeoLiteCity.dat".toList "u".toList).1 =
         .ok ⟨"vendor/GeoLiteCity.dat".toList, stInitial.accessFlag⟩)) :=
  ⟨rfl,
   make_geoip_local_fast_path envAllOk stInitial "GeoLiteCity".toList
     "vendor/GeoLiteCity.dat".toList "u".toList rfl⟩

/-- C6: when a blob of the requested name is already in the store, then
with force-refresh off `get_blob` performs no network fetch and returns the
existing blob and state unchanged (only the one store query happens); with
force-refresh on it performs exactly one network fetch, on that existing
blob. -/
theorem get_blob_cached (env : Env) (st : UtilState) (name url : PyStr)
    (b : Blob)
    (hfound : st.blobStore.find? (fun x => x.name == name) = some b) :
    (st.shouldForceUpdate = false →
      get_blob env st name url =
        (b, st, { zeroEffects with blobQueries := 1 })) ∧
    (st.shouldForceUpdate = true →
      (get_blob env st name url).2.2.fetchLog =
        [(url, pyEndsWith url gzSuffix)] ∧
      (get_blob env st name url).1 =
        updateFromUrl env b url (pyEndsWith url gzSuffix)) := by
  constructor
  · intro hf
    unfold get_blob
    rw [hfound]
    simp [hf, zeroEffects]
  · intro hf
    unfold get_blob
    rw [hfound]
    by_cases hs : st.shouldSave <;> simp [hf, hs]

/-- C6, witness: a concrete store holding the blob, force-refresh off and
on. -/
theorem get_blob_cached_witness :
    stWithBlob.blobStore.find?
      (fun x => x.name == "GeoLiteCity".toList) = some blobCached ∧
    ((stWithBlob.shouldForceUpdate = false →
       get_blob envAllOk stWithBlob "GeoLiteCity".toList "u".toList =
         (blobCached, stWithBlob, { zeroEffects with blobQueries := 1 })) ∧
     (stWithBlob.shouldForceUpdate = true →
       (get_blob envAllOk stWithBlob "GeoLiteCity".toList
           "u".toList).2.2.fetchLog =
         [("u".toList, pyEndsWith "u".toList gzSuffix)] ∧
       (get_blob envAllOk stWithBlob "GeoLiteCity".toList "u".toList).1 =
         updateFromUrl envAllOk blobCached "u".toList
           (pyEndsWith "u".toList gzSuffix))) :=
  ⟨rfl,
   get_blob_cached envAllOk stWithBlob "GeoLiteCity".toList "u".toList
     blobCached rfl⟩

/-- C7: when no blob of the requested name exists, `get_blob` creates
exactly one blob and populates it from the source URL exactly once,
passing `should_unzip` exactly when the URL ends in `'.gz'`. -/
theorem get_blob_absent_creates_once (env : Env) (st : UtilState)
    (name url : PyStr)
    (hmiss : st.blobStore.find? (fun x => x.name == name) = none) :
    (get_blob env st name url).2.2.blobCreates = 1 ∧
    (get_blob env st name url).2.2.fetchLog =
      [(url, pyEndsWith url gzSuffix)] ∧
    (get_blob env st name url).1 =
      updateFromUrl env (Blob.factory name) url (pyEndsWith url gzSuffix) := by
  unfold get_blob
  rw [hmiss]
  by_cases hs : st.shouldSave <;> simp [hs]

/-- C7, witness: an empty store and a gzipped source URL. -/
theorem get_blob_absent_creates_once_witness :
    stInitial.blobStore.find?
      (fun x => x.name == "GeoLiteCity".toList) = none ∧
    ((get_blob envAllOk stInitial "GeoLiteCity".toList
        "db.dat.gz".toList).2.2.blobCreates = 1 ∧
     (get_blob envAllOk stInitial "GeoLiteCity".toList
        "db.dat.gz".toList).2.2.fetchLog =
       [("db.dat.gz".toList, pyEndsWith "db.dat.gz".toList gzSuffix)] ∧
     (get_blob envAllOk stInitial "GeoLiteCity".toList
        "db.dat.gz".toList).1 =
       updateFromUrl envAllOk (Blob.factory "GeoLiteCity".toList)
         "db.dat.gz".toList (pyEndsWith "db.dat.gz".toList gzSuffix)) :=
  ⟨rfl,
   get_blob_absent_creates_once envAllOk stInitial "GeoLiteCity".toList
     "db.dat.gz".toList rfl⟩

/-- C8: for any fixed decoders, looking up a comma-separated list of
addresses is the same as looking up the first list element alone — the
address is normalised (take the prefix before the first comma, trim
whitespace) before any decoder is consulted. -/
theorem lookup_comma_first_segment (clients : List Client) (s t : PyStr)
    (h : ',' ∉ s) :
    lookup clients (.vstr (s ++ ',' :: t)) = lookup clients (.vstr s) := by
  unfold lookup
  rw [normalizeAddress_comma s t h]

/-- C8, witness: `lookup("1.2.3.4, 5.6.7.8") = lookup("1.2.3.4")`. -/
theorem lookup_comma_first_segment_witness :
    (',' ∉ "1.2.3.4".toList) ∧
    lookup [clientCityX]
        (.vstr ("1.2.3.4".toList ++ ',' :: " 5.6.7.8".toList)) =
      lookup [clientCityX] (.vstr "1.2.3.4".toList) :=
  ⟨by decide,
   lookup_comma_first_segment [clientCityX] "1.2.3.4".toList
     " 5.6.7.8".toList (by decide)⟩

/-- C9: calling `setup_clients` with an empty list of address families
leaves the decoders list empty, and a subsequent `force_update` does not
raise the already-populated error — the emptiness guard is vacuously
bypassed and `force_update` proceeds into `setup_clients`. -/
theorem setup_clients_empty_families_bypasses_guard (env : Env)
    (st : UtilState) (defaults : List (PyStr × PyStr)) :
    setup_clients env st [] defaults =
      .ok { st with clients := [], databases := [] } ∧
    force_update env { st with clients := [], databases := [] } =
      setup_clients env
        { st with clients := [], databases := [], shouldForceUpdate := true }
        IP_TYPES DEFAULTS :=
  ⟨rfl, rfl⟩

/-- C10: latin-1 decoding succeeds for every byte sequence, so the
`UnicodeDecodeError` fallback branch of the text-decoding pass in
`get_geoip_lookup` is unreachable, and the pass never raises on any
record. -/
theorem latin1_total_fallback_unreachable :
    (∀ bs : List Byte, ∃ s, decodeSingleByteCodec latin1Table bs = .ok s) ∧
    ∀ data : GeoRecord, ∃ out, processRecord data = .ok (out, false) := by
  refine ⟨decodeSingleByteCodec_latin1_ok, ?_⟩
  intro data
  induction data with
  | nil => exact ⟨[], rfl⟩
  | cons kv rest ih =>
      obtain ⟨k, v⟩ := kv
      obtain ⟨out, hout⟩ := ih
      obtain ⟨w, hw⟩ := decodeFieldValue_no_fallback v
      exact ⟨(k, w) :: out, by simp [processRecord, hw, hout, bind, Except.bind]⟩

end PyramidGeoip
